import Mathlib

/-!
Verification development for the Travel_Agent2Agent repository.

Shallow embedding of the pure/deterministic core of the repository:
the input validators (`src/utils/validators.py`), the order backend
(`src/mcp_servers/order_mcp.py`) modelled as explicit state passing over
a database state, the shared database service (`src/mcp_servers/base_service.py`)
with driver outcomes passed in explicitly, the Order Agent's booking
decision logic (`src/agents/order_agent.py`), and the health-check script
(`scripts/health_check.py`).
-/

namespace Travel

/-! ## Validators (src/utils/validators.py) -/

/-- Character-class test for the regex `\d` (modelled as ASCII digits `0-9`). -/
def isDigitChar (c : Char) : Bool := c.isDigit

/-- Match of the regex `^1[3-9]\d{9}$` under Python `re.match` semantics:
`$` matches at the end of the string or just before one trailing newline, so
the eleven-character pattern may be followed by a single final `'\n'`. -/
def phoneMatch : List Char → Bool
  | c0 :: c1 :: rest =>
      c0 == '1' && ('3' ≤ c1 && c1 ≤ '9') &&
        (rest.length == 9 && rest.all isDigitChar ||
         rest.length == 10 && (rest.take 9).all isDigitChar &&
           rest.getLast? == some '\n')
  | _ => false

/-- `Validators.validate_phone`: empty rejected, else
`re.match(r'^1[3-9]\d{9}$', phone)`. -/
def validate_phone (phone : String) : Bool × String :=
  if phone.isEmpty then (false, "手机号不能为空")
  else if phoneMatch phone.toList then (true, "")
  else (false, "请输入有效的11位手机号码")

/-- Full match of the regex `^\d{17}[\dXx]$` on a character list. -/
def idCardMatch (l : List Char) : Bool :=
  l.length == 18 && (l.take 17).all isDigitChar &&
    (match l.getLast? with
     | some c => isDigitChar c || c == 'X' || c == 'x'
     | none => false)

/-- The fixed weight table of the ID-card checksum. -/
def idWeights : List Nat := [7, 9, 10, 5, 8, 4, 2, 1, 6, 3, 7, 9, 10, 5, 8, 4, 2]

/-- The fixed check-code table of the ID-card checksum. -/
def idCheckCodes : List Char := ['1', '0', 'X', '9', '8', '7', '6', '5', '4', '3', '2']

/-- Numeric value of an ASCII digit character (`int(c)` on a digit). -/
def digitVal (c : Char) : Nat := c.toNat - 48

/-- The weighted checksum `sum(int(id_card[i]) * weights[i] for i in range(17))`. -/
def idCardTotal (l : List Char) : Nat :=
  (List.zipWith (fun c w => digitVal c * w) (l.take 17) idWeights).sum

/-- `Validators.validate_id_card`: empty is valid; else 18-char shape plus
weighted-sum-mod-11 check digit. -/
def validate_id_card (id_card : String) : Bool × String :=
  if id_card.isEmpty then (true, "")
  else
    let l := id_card.toList
    if ¬ idCardMatch l then (false, "请输入有效的18位身份证号码")
    else
      let expected := idCheckCodes.getD (idCardTotal l % 11) ' '
      match l.getLast? with
      | some c => if c.toUpper ≠ expected then (false, "身份证号码校验码不正确") else (true, "")
      | none => (false, "身份证号码格式不正确")

/-- The denylisted characters of `validate_name`: the regex class
`[0-9@#$%^&*()+=\[\]{}|\\/<>]`. -/
def nameBadChar (c : Char) : Bool :=
  isDigitChar c ||
    c ∈ ['@', '#', '$', '%', '^', '&', '*', '(', ')', '+', '=',
         '[', ']', '\x7b', '\x7d', '|', '\\', '/', '<', '>']

/-- `Validators.validate_name`: non-empty, length 2–20, no denylisted character. -/
def validate_name (name : String) : Bool × String :=
  if name.isEmpty then (false, "姓名不能为空")
  else if name.length < 2 then (false, "姓名至少需要2个字符")
  else if name.length > 20 then (false, "姓名不能超过20个字符")
  else if name.toList.any nameBadChar then (false, "姓名包含非法字符")
  else (true, "")

/-- Character-class test for the regex `[A-Z0-9]`. -/
def isUpperAlnum (c : Char) : Bool := ('A' ≤ c && c ≤ 'Z') || isDigitChar c

/-- Full match of the regex `^ORD\d{14}[A-Z0-9]{6}$` on a character list. -/
def orderNoMatch (l : List Char) : Bool :=
  l.length == 23 &&
    l.take 3 == ['O', 'R', 'D'] &&
    ((l.drop 3).take 14).all isDigitChar &&
    (l.drop 17).all isUpperAlnum

/-- `Validators.validate_order_no`: non-empty and regex `^ORD\d{14}[A-Z0-9]{6}$`. -/
def validate_order_no (order_no : String) : Bool × String :=
  if order_no.isEmpty then (false, "订单号不能为空")
  else if orderNoMatch order_no.toList then (true, "")
  else (false, "订单号格式不正确")

/-! ## Order-number generator (OrderService.generate_order_no) -/

/-- A wall-clock reading, the input of `datetime.now().strftime('%Y%m%d%H%M%S')`. -/
structure Timestamp where
  year : Nat
  month : Nat
  day : Nat
  hour : Nat
  minute : Nat
  second : Nat

/-- Two-digit zero-padded rendering (strftime `%m`/`%d`/`%H`/`%M`/`%S` for values ≤ 99). -/
def pad2 (n : Nat) : List Char :=
  [Char.ofNat (48 + n / 10 % 10), Char.ofNat (48 + n % 10)]

/-- Four-digit rendering (strftime `%Y` for years 1000–9999). -/
def pad4 (n : Nat) : List Char :=
  [Char.ofNat (48 + n / 1000 % 10), Char.ofNat (48 + n / 100 % 10),
   Char.ofNat (48 + n / 10 % 10), Char.ofNat (48 + n % 10)]

/-- `strftime('%Y%m%d%H%M%S')` on a wall-clock reading. -/
def strftimeCompact (t : Timestamp) : List Char :=
  pad4 t.year ++ pad2 t.month ++ pad2 t.day ++ pad2 t.hour ++ pad2 t.minute ++ pad2 t.second

/-- Lowercase hex rendering of one nibble, as produced by `uuid4().hex`. -/
def hexChar (n : Fin 16) : Char :=
  if n.val < 10 then Char.ofNat (48 + n.val) else Char.ofNat (87 + n.val)

/-- `OrderService.generate_order_no`: `"ORD"` + 14-digit timestamp + first six
hex characters of a random UUID, uppercased. The clock reading and the UUID
nibbles are explicit inputs of the embedding. -/
def generate_order_no (t : Timestamp) (uuid : List (Fin 16)) : String :=
  ⟨'O' :: 'R' :: 'D' :: (strftimeCompact t ++ ((uuid.map hexChar).take 6).map Char.toUpper)⟩

/-! ## Order backend state model (src/mcp_servers/order_mcp.py)

The three ticket tables are keyed by their integer primary key `id`; the
`orders` table is an append-only list of rows keyed by `order_no` (`INSERT`
appends, `UPDATE ... WHERE order_no = x` rewrites every row with that key).
The single database-driver outcome the order code branches on — whether the
order-row `INSERT` succeeds — is passed in explicitly. -/

inductive TicketType where
  | train
  | flight
  | concert
deriving DecidableEq

/-- One row of `train_tickets`/`flight_tickets`/`concert_tickets`
(the fields the order backend reads). -/
structure TicketRow where
  total_seats : Int
  remaining_seats : Int
  price : ℚ
deriving DecidableEq

/-- One row of the `orders` table (the fields the order backend writes/reads). -/
structure OrderRow where
  ticket_type : String
  ticket_id : Int
  quantity : Int
  unit_price : ℚ
  total_price : ℚ
  contact_name : String
  contact_phone : String
  contact_id_card : String
  status : String
deriving DecidableEq

/-- The database state seen by the order backend. -/
structure DBState where
  tickets : TicketType → Int → Option TicketRow
  orders : List (String × OrderRow)

/-- The `table_map` dict of `get_ticket_info`/`update_remaining_seats`. -/
def table_map : String → Option TicketType
  | "train" => some .train
  | "flight" => some .flight
  | "concert" => some .concert
  | _ => none

/-- `OrderService.get_ticket_info`: select the table by type, look the row up by id. -/
def get_ticket_info (s : DBState) (ticket_type : String) (ticket_id : Int) :
    Option TicketRow :=
  match table_map ticket_type with
  | none => none
  | some tt => s.tickets tt ticket_id

/-- `OrderService.update_remaining_seats`: the conditional
`UPDATE ... SET remaining_seats = remaining_seats - quantity
WHERE id = ticket_id AND remaining_seats >= quantity`, returning
`affected_rows > 0`. The MySQL driver counts rows actually changed, so a
matched row with `quantity = 0` still reports zero affected rows. -/
def update_remaining_seats (s : DBState) (ticket_type : String) (ticket_id : Int)
    (quantity : Int) : DBState × Bool :=
  match table_map ticket_type with
  | none => (s, false)
  | some tt =>
    match s.tickets tt ticket_id with
    | none => (s, false)
    | some row =>
      if quantity ≤ row.remaining_seats then
        ({ s with
            tickets := fun t i =>
              if t = tt ∧ i = ticket_id then
                some { row with remaining_seats := row.remaining_seats - quantity }
              else s.tickets t i },
         quantity != 0)
      else (s, false)

/-- Result of an order-backend business operation: a created order record,
a success message, or a structured error message. -/
inductive OpResult where
  | okOrder (data : OrderRow)
  | okMsg (msg : String)
  | err (msg : String)
deriving DecidableEq

/-- `OrderService.create_order`. `order_no` stands for the value of
`generate_order_no()` at the call and `insertOk` for the database outcome of
the order-row `INSERT`. -/
def create_order (s : DBState) (ticket_type : String) (ticket_id : Int)
    (quantity : Int) (contact_name contact_phone contact_id_card : String)
    (order_no : String) (insertOk : Bool) : DBState × OpResult :=
  match get_ticket_info s ticket_type ticket_id with
  | none => (s, .err "票务不存在")
  | some ticket =>
    let remaining := ticket.remaining_seats
    if remaining < quantity then
      (s, .err ("余票不足，当前仅剩 " ++ toString remaining ++ " 张"))
    else
      let unit_price := ticket.price
      let total_price := unit_price * (quantity : ℚ)
      let r1 := update_remaining_seats s ticket_type ticket_id quantity
      if ¬ r1.2 then (r1.1, .err "库存扣减失败，请重试")
      else if insertOk then
        let row : OrderRow :=
          { ticket_type := ticket_type, ticket_id := ticket_id, quantity := quantity,
            unit_price := unit_price, total_price := total_price,
            contact_name := contact_name, contact_phone := contact_phone,
            contact_id_card := contact_id_card, status := "pending" }
        ({ r1.1 with orders := r1.1.orders ++ [(order_no, row)] }, .okOrder row)
      else
        ((update_remaining_seats r1.1 ticket_type ticket_id (-quantity)).1,
         .err "订单创建失败")

/-- The `UPDATE orders SET status = 'cancelled' WHERE order_no = x` statement
applied to one stored row. -/
def cancelEntry (order_no : String) (p : String × OrderRow) : String × OrderRow :=
  if p.1 == order_no then (p.1, { p.2 with status := "cancelled" }) else p

/-- `OrderService.cancel_order`: look the order up, reject non-pending status,
else mark it cancelled and restore the seats by the order's quantity. -/
def cancel_order (s : DBState) (order_no : String) : DBState × OpResult :=
  match s.orders.find? (fun p => p.1 == order_no) with
  | none => (s, .err "订单不存在")
  | some p =>
    if p.2.status ≠ "pending" then (s, .err "只能取消待支付的订单")
    else
      let s1 : DBState := { s with orders := s.orders.map (cancelEntry order_no) }
      ((update_remaining_seats s1 p.2.ticket_type p.2.ticket_id (-p.2.quantity)).1,
       .okMsg "订单已取消")

/-- One order-backend tool invocation (`query_order` and `list_orders` are
read-only). -/
inductive Op where
  | createOp (ticket_type : String) (ticket_id : Int) (quantity : Int)
      (contact_name contact_phone contact_id_card order_no : String) (insertOk : Bool)
  | cancelOp (order_no : String)
  | queryOp (order_no : String)
  | listOp (contact_phone status : Option String) (limit : Int)

/-- State effect of one order-backend tool invocation. -/
def step (s : DBState) : Op → DBState
  | .createOp ty tid q cn cp cic ono ok => (create_order s ty tid q cn cp cic ono ok).1
  | .cancelOp ono => (cancel_order s ono).1
  | .queryOp _ => s
  | .listOp _ _ _ => s

/-- State effect of a sequence of order-backend tool invocations. -/
def run (s : DBState) (ops : List Op) : DBState := ops.foldl step s

/-- Does a stored order row reference the ticket row `(tt, tid)`? -/
def refsTicket (o : OrderRow) (tt : TicketType) (tid : Int) : Bool :=
  table_map o.ticket_type == some tt && o.ticket_id == tid

/-- Total quantity of pending orders referencing the ticket row `(tt, tid)`. -/
def pendingSum (orders : List (String × OrderRow)) (tt : TicketType) (tid : Int) : Int :=
  ((orders.filter (fun p => p.2.status == "pending" && refsTicket p.2 tt tid)).map
    (fun p => p.2.quantity)).sum

/-- Every ticket row satisfies `0 ≤ remaining_seats ≤ total_seats`. -/
def SeatBounds (s : DBState) : Prop :=
  ∀ tt tid row, s.tickets tt tid = some row →
    0 ≤ row.remaining_seats ∧ row.remaining_seats ≤ row.total_seats

/-- Every pending order's quantity was previously deducted from its ticket's
remaining seats: per ticket, remaining seats plus the pending quantities stay
within the total, and every pending quantity is a positive booking. -/
def Deducted (s : DBState) : Prop :=
  (∀ tt tid row, s.tickets tt tid = some row →
      0 ≤ row.remaining_seats ∧
      row.remaining_seats + pendingSum s.orders tt tid ≤ row.total_seats) ∧
  ∀ p ∈ s.orders, p.2.status = "pending" → 1 ≤ p.2.quantity

/-- An invocation whose created quantity (if any) is a positive booking. -/
def OpQuantityPos : Op → Prop
  | .createOp _ _ q _ _ _ _ _ => 1 ≤ q
  | _ => True

/-- The remaining-seat count of the ticket row referenced by type and id. -/
def remainingAt (s : DBState) (ticket_type : String) (ticket_id : Int) : Option Int :=
  (get_ticket_info s ticket_type ticket_id).map (fun r => r.remaining_seats)

/-- The status of the (first) stored order with the given order number. -/
def orderStatus (s : DBState) (order_no : String) : Option String :=
  (s.orders.find? (fun p => p.1 == order_no)).map (fun p => p.2.status)

/-- A demonstration table: one train ticket, id 1, 10 of 10 seats left,
price 100. -/
def demoTickets : TicketType → Int → Option TicketRow :=
  fun tt tid => if tt = .train ∧ tid = 1 then some ⟨10, 10, 100⟩ else none

/-- A demonstration database state with no orders. -/
def demoState : DBState := ⟨demoTickets, []⟩

/-! ## Order Agent booking flow (src/agents/order_agent.py) -/

/-- Python substring containment (the `in` operator on strings). -/
def containsSub : List Char → List Char → Bool
  | needle, [] => needle.isEmpty
  | needle, c :: t => needle.isPrefixOf (c :: t) || containsSub needle t

/-- Digit-string to number, as `int()` on the captured group. -/
def digitsToNat (ds : List Char) : Nat :=
  ds.foldl (fun acc c => 10 * acc + digitVal c) 0

/-- Try to match the regex `票务ID[：:]\s*(\d+)` at the head of the input;
on success return the captured number and the rest of the input after the
match. -/
def matchIdAt : List Char → Option (Nat × List Char)
  | '票' :: '务' :: 'I' :: 'D' :: c :: rest =>
    if c = '：' ∨ c = ':' then
      let rest2 := rest.dropWhile Char.isWhitespace
      let ds := rest2.takeWhile isDigitChar
      if ds.isEmpty then none
      else some (digitsToNat ds, rest2.dropWhile isDigitChar)
    else none
  | _ => none

/-- Left-to-right non-overlapping scan of `re.findall`, fuelled by the input
length (each step consumes at least one character). -/
def scanTicketIds : Nat → List Char → List Nat
  | 0, _ => []
  | _ + 1, [] => []
  | fuel + 1, c :: cs =>
    match matchIdAt (c :: cs) with
    | some (n, rest) => n :: scanTicketIds fuel rest
    | none => scanTicketIds fuel cs

/-- `OrderBookingAgent.extract_ticket_ids`: all numbers matched by
`票务ID[：:]\s*(\d+)` in the reply text. -/
def extract_ticket_ids (content : String) : List Nat :=
  scanTicketIds content.toList.length content.toList

/-- The parsed order intent (`parse_intent` output), with absent JSON keys
modelled as `none`. -/
structure OrderIntent where
  status : Option String
  message : Option String
  ticket_type : Option String
  ticket_id : Option Int
  quantity : Option Int
  contact_name : Option String
  contact_phone : Option String
  contact_id_card : Option String

/-- Python truthiness of an optional string field. -/
def truthyStr : Option String → Bool
  | none => false
  | some s => !s.isEmpty

/-- Python truthiness of an optional integer field. -/
def truthyInt : Option Int → Bool
  | none => false
  | some n => n != 0

/-- Observable outcome of one `handle_task` turn: a task response, or a
`create_order` call about to be issued to the order tool backend. -/
inductive TaskResponse where
  | inputRequired (msg : String)
  | errorResp (msg : String)
  | mcpCreateOrder (ticket_type : String) (ticket_id : Int) (quantity : Int)
      (contact_name contact_phone contact_id_card : String)
deriving DecidableEq

/-- `OrderBookingAgent.handle_task`, steps 3–9: from the parsed intent and
the Ticket Agent's reply (transport error message, or reply text), decide the
response or the `create_order` call. The LLM call, the task envelope and the
formatting of the create-order result are outside this model. -/
def handle_task_core (intent : OrderIntent) (ticketReply : Except String String) :
    TaskResponse :=
  if intent.status == some "input_required" then
    .inputRequired (intent.message.getD "请提供更多订票信息")
  else if ¬ (truthyStr intent.contact_name ∧ truthyStr intent.contact_phone) then
    .inputRequired "请提供联系人姓名和手机号码，例如：张三，13800138000"
  else if truthyInt intent.ticket_id then
    .mcpCreateOrder (intent.ticket_type.getD "train") (intent.ticket_id.getD 0)
      (intent.quantity.getD 1) (intent.contact_name.getD "")
      (intent.contact_phone.getD "") (intent.contact_id_card.getD "")
  else
    match ticketReply with
    | .error msg => .errorResp ("查询余票失败: " ++ msg)
    | .ok content =>
      if containsSub "未找到".toList content.toList ||
         containsSub "没有".toList content.toList then
        .inputRequired ("😔 " ++ content ++
          "\n\n请调整您的出行计划：\n- 尝试其他日期\n- 尝试其他座位类型\n- 尝试其他车次/航班")
      else
        match extract_ticket_ids content with
        | [] =>
          .inputRequired ("查询到以下票务信息：\n\n" ++ content ++
            "\n\n请提供您要预订的票务ID，例如：订票务ID 123")
        | [tid] =>
          .mcpCreateOrder (intent.ticket_type.getD "train") (Int.ofNat tid)
            (intent.quantity.getD 1) (intent.contact_name.getD "")
            (intent.contact_phone.getD "") (intent.contact_id_card.getD "")
        | tid :: _ :: _ =>
          .inputRequired ("查询到多个票务选项：\n\n" ++ content ++
            "\n\n请指定您要预订的票务ID，例如：订票务ID " ++ toString tid)

/-! ## Shared database service (src/mcp_servers/base_service.py) -/

/-- A column value as fetched by the driver (the types the encoder branches on). -/
inductive DbValue where
  | vInt (n : Int)
  | vStr (s : String)
  | vDate (year month day : Nat)
  | vDatetime (year month day hour minute second : Nat)
  | vTimedelta (hours minutes seconds : Nat)
  | vDecimal (q : ℚ)
deriving DecidableEq

/-- A fetched row: field name to value. -/
def DbRow := List (String × DbValue)

/-- A JSON value (the shapes `execute_query` serializes). -/
inductive Json where
  | jStr (s : String)
  | jNum (q : ℚ)
  | jInt (n : Int)
  | jArr (l : List Json)
  | jObj (l : List (String × Json))

/-- `DatabaseService._encode_value`: temporal values to their fixed string
forms, decimals to numbers, everything else unchanged. -/
def encode_value : DbValue → Json
  | .vInt n => .jInt n
  | .vStr s => .jStr s
  | .vDate y m d => .jStr ⟨pad4 y ++ '-' :: pad2 m ++ '-' :: pad2 d⟩
  | .vDatetime y mo d h mi s =>
      .jStr ⟨pad4 y ++ '-' :: pad2 mo ++ '-' :: pad2 d ++ ' ' ::
             pad2 h ++ ':' :: pad2 mi ++ ':' :: pad2 s⟩
  | .vTimedelta h m s => .jStr (toString h ++ ":" ++ ⟨pad2 m⟩ ++ ":" ++ ⟨pad2 s⟩)
  | .vDecimal q => .jNum q

/-- The per-row, per-field conversion loop of `execute_query`. -/
def encodeRow (r : DbRow) : List (String × Json) :=
  r.map (fun p => (p.1, encode_value p.2))

/-- Inputs determining one `execute_query` call's interaction with the
driver: whether the connection check needs a reconnect, whether `_connect`
succeeds when attempted (with the driver's message when it does not), and the
outcome of the statement itself (fetched rows, or a driver error message). -/
structure DbEnv where
  reconnectNeeded : Bool
  reconnectOk : Bool
  connectErrMsg : String
  queryOutcome : Except String (List DbRow)

/-- `DatabaseService.execute_query`. `Except.error` models an exception
escaping the call: `_ensure_connection()` runs before the `try` block, and a
failed `_connect` re-raises the driver error. -/
def execute_query (env : DbEnv) : Except String Json :=
  if env.reconnectNeeded ∧ ¬ env.reconnectOk then .error env.connectErrMsg
  else
    match env.queryOutcome with
    | .error e => .ok (.jObj [("status", .jStr "error"), ("message", .jStr e)])
    | .ok rows =>
      if rows.isEmpty then
        .ok (.jObj [("status", .jStr "no_data"), ("message", .jStr "未找到数据")])
      else
        .ok (.jObj [("status", .jStr "success"),
                    ("data", .jArr (rows.map (fun r => .jObj (encodeRow r))))])

/-! ## Health check (scripts/health_check.py) -/

/-- Outcome of each probe of the health-check script: the database plus the
fixed service list (three tool backends, three agents, the web front end). -/
structure HealthOutcomes where
  db : Bool
  weatherMcp : Bool
  ticketMcp : Bool
  orderMcp : Bool
  weatherAgent : Bool
  ticketAgent : Bool
  orderAgent : Bool
  web : Bool

/-- The `SERVICES` table with each probe's boolean outcome attached
(category, then (name, healthy) pairs). -/
def serviceResults (o : HealthOutcomes) : List (String × List (String × Bool)) :=
  [("MCP服务", [("Weather MCP", o.weatherMcp), ("Ticket MCP", o.ticketMcp),
               ("Order MCP", o.orderMcp)]),
   ("Agent服务", [("Weather Agent", o.weatherAgent), ("Ticket Agent", o.ticketAgent),
                 ("Order Agent", o.orderAgent)]),
   ("Web服务", [("Streamlit", o.web)])]

/-- The `all_healthy` flag computed by `print_results`: starts true, cleared
by any unhealthy service. -/
def all_healthy (o : HealthOutcomes) : Bool :=
  (serviceResults o).all (fun cat => cat.2.all (fun svc => svc.2))

/-- The health-check script's exit code:
`sys.exit(0 if (all_healthy and db_ok) else 1)`. -/
def health_exit_code (o : HealthOutcomes) : Nat :=
  if all_healthy o && o.db then 0 else 1

/-! ## Spec-side predicates -/

/-- Spec reading of the phone rule: exactly 11 characters, a leading `1`,
second character in `3`–`9`, the remaining nine characters digits. -/
def PhonePattern (l : List Char) : Prop :=
  ∃ c1 rest, l = '1' :: c1 :: rest ∧ '3' ≤ c1 ∧ c1 ≤ '9' ∧
    rest.length = 9 ∧ ∀ c ∈ rest, c.isDigit

/-- What `re.match(r'^1[3-9]\d{9}$', ...)` actually accepts: the
11-character pattern, optionally followed by the one trailing newline that
`$` tolerates. -/
def PhonePatternPy (l : List Char) : Prop :=
  PhonePattern l ∨ ∃ l0, l = l0 ++ ['\n'] ∧ PhonePattern l0

/-- Spec reading of the ID-card rule: 17 digits, one digit-or-X/x, and the
final character (uppercased) equals
`checkCodes[sum(digit[i] * weights[i] for i in 0..16) mod 11]`. -/
def IdCardOk (s : String) : Prop :=
  ∃ cs c, s.toList = cs ++ [c] ∧ cs.length = 17 ∧ (∀ d ∈ cs, d.isDigit) ∧
    (c.isDigit ∨ c = 'X' ∨ c = 'x') ∧
    c.toUpper =
      idCheckCodes.getD
        ((List.zipWith (fun d w => (d.toNat - 48) * w) cs idWeights).sum % 11) ' '

/-! # Theorems -/

/-- Helper: characterization of the phone regex matcher under Python
`re.match` semantics. -/
theorem phoneMatch_iff (l : List Char) : phoneMatch l = true ↔ PhonePatternPy l := by
  cases l with
  | nil =>
    constructor
    · intro h
      exact absurd h (by decide)
    · rintro (⟨c1, rest, hl, -⟩ | ⟨l0, hl, -⟩)
      · simp at hl
      · have hlen := congrArg List.length hl
        simp only [List.length_append, List.length_cons, List.length_nil] at hlen
        omega
  | cons c0 t =>
    cases t with
    | nil =>
      constructor
      · intro h
        simp [phoneMatch] at h
      · rintro (⟨c1, rest, hl, -⟩ | ⟨l0, hl, hP⟩)
        · simp at hl
        · rcases l0 with _ | ⟨a, l0⟩
          · obtain ⟨c1, rest, hl0, -⟩ := hP
            simp at hl0
          · have hlen := congrArg List.length hl
            simp only [List.length_append, List.length_cons, List.length_nil] at hlen
            omega
    | cons c1 rest =>
      simp only [phoneMatch, PhonePatternPy, PhonePattern, Bool.and_eq_true,
        Bool.or_eq_true, beq_iff_eq, decide_eq_true_eq, List.all_eq_true,
        isDigitChar]
      constructor
      · rintro ⟨⟨h0, h3, h9⟩, ⟨hlen, hd⟩ | ⟨⟨hlen10, hd9⟩, hlast⟩⟩
        · exact Or.inl ⟨c1, rest, by rw [h0], h3, h9, hlen, hd⟩
        · have hne : rest ≠ [] := by
            intro h
            rw [h] at hlen10
            simp at hlen10
          have hgl : rest.getLast hne = '\n' := by
            have hq := List.getLast?_eq_getLast rest hne
            rw [hq] at hlast
            exact Option.some_inj.mp hlast
          have hsplit : rest = rest.take 9 ++ ['\n'] := by
            have ha := List.dropLast_append_getLast hne
            rw [hgl] at ha
            have hb := List.dropLast_eq_take rest
            rw [hlen10] at hb
            norm_num at hb
            rw [hb] at ha
            exact ha.symm
          refine Or.inr ⟨'1' :: c1 :: rest.take 9, ?_,
            c1, rest.take 9, rfl, h3, h9, ?_, ?_⟩
          · rw [h0]
            nth_rewrite 1 [hsplit]
            simp
          · simp [List.length_take, hlen10]
          · exact hd9
      · rintro (⟨c1', rest', hl, h3, h9, hlen, hd⟩ |
          ⟨l0, hl, c1', rest', hl0, h3, h9, hlen, hd⟩)
        · rw [List.cons.injEq, List.cons.injEq] at hl
          obtain ⟨h0, hc1, hrest⟩ := hl
          subst hc1
          subst hrest
          exact ⟨⟨h0, h3, h9⟩, Or.inl ⟨hlen, hd⟩⟩
        · subst hl0
          rw [List.cons_append, List.cons_append, List.cons.injEq,
            List.cons.injEq] at hl
          obtain ⟨h0, hc1, hrest⟩ := hl
          subst hc1
          subst hrest
          refine ⟨⟨h0, h3, h9⟩, Or.inr ⟨⟨by simp [hlen], ?_⟩, ?_⟩⟩
          · intro c hc
            rw [List.take_left' hlen] at hc
            exact hd c hc
          · rw [List.getLast?_concat]

/-- C8 counterexample: Python's `$` also matches just before one trailing
newline, so `validate_phone` accepts the 12-character `"13800138000\n"`,
refuting the claim that validity coincides with the exactly-11-character
full match. -/
theorem validate_phone_trailing_newline :
    validate_phone "13800138000\n" = (true, "") ∧
    ¬ PhonePattern ("13800138000\n").toList := by
  constructor
  · decide
  · rintro ⟨c1, rest, heq, -, -, hlen, -⟩
    have h12 : ("13800138000\n").toList.length = 12 := by decide
    rw [heq] at h12
    simp [hlen] at h12

/-- C8 (amended): `validate_phone` accepts exactly the strings matching
`1[3-9]\d{9}` optionally followed by a single trailing newline (Python
`re.match` with `$`); `"13800138000"` is valid with empty message, while
`"23800138000"` and `"1380013800"` are invalid. -/
theorem validate_phone_accepts_iff :
    (∀ s : String, validate_phone s = (true, "") ↔ PhonePatternPy s.toList) ∧
    validate_phone "13800138000" = (true, "") ∧
    (validate_phone "23800138000").1 = false ∧
    (validate_phone "1380013800").1 = false := by
  refine ⟨fun s => ?_, by decide, by decide, by decide⟩
  unfold validate_phone
  by_cases he : s.isEmpty
  · rw [String.isEmpty_iff] at he
    subst he
    constructor
    · intro h
      exact absurd h (by decide)
    · rintro (⟨c1, rest, hl, -⟩ | ⟨l0, hl, -⟩)
      · simp at hl
      · have hl2 : ([] : List Char) = l0 ++ ['\n'] := hl
        have hlen := congrArg List.length hl2
        simp only [List.length_append, List.length_cons, List.length_nil] at hlen
        omega
  · simp only [he, Bool.false_eq_true, if_false]
    rw [← phoneMatch_iff]
    by_cases hm : phoneMatch s.toList <;> simp [hm]

/-- C10: a 2–20-character name containing a decimal digit and none of the
denylisted symbols is still rejected with `姓名包含非法字符`. -/
theorem validate_name_rejects_digits (s : String)
    (h2 : 2 ≤ s.length) (h20 : s.length ≤ 20)
    (hd : ∃ c ∈ s.toList, c.isDigit)
    (hsym : ∀ c ∈ s.toList,
      c ∉ ['@', '#', '$', '%', '^', '&', '*', '(', ')', '+', '=',
           '[', ']', '\x7b', '\x7d', '|', '\\', '/', '<', '>']) :
    validate_name s = (false, "姓名包含非法字符") := by
  obtain ⟨c, hc, hcd⟩ := hd
  have hne : ¬ s.isEmpty := by
    rw [String.isEmpty_iff]
    intro h
    subst h
    simp at h2
  have hany : s.toList.any nameBadChar = true := by
    rw [List.any_eq_true]
    exact ⟨c, hc, by simp [nameBadChar, isDigitChar, hcd]⟩
  unfold validate_name
  simp only [hne, Bool.false_eq_true, if_false, hany, if_true]
  rw [if_neg (by omega), if_neg (by omega)]

/-- C10 witness: a concrete 3-character name with a digit is rejected. -/
theorem validate_name_rejects_digits_witness :
    validate_name "张三3" = (false, "姓名包含非法字符") :=
  validate_name_rejects_digits "张三3" (by decide) (by decide) (by decide) (by decide)

/-- Helper: a full match of `^\d{17}[\dXx]$` splits into 17 digits and a
final digit-or-X character. -/
theorem idCardMatch_decomp (l : List Char) (h : idCardMatch l = true) :
    ∃ cs c, l = cs ++ [c] ∧ cs.length = 17 ∧ (∀ d ∈ cs, d.isDigit) ∧
      (c.isDigit ∨ c = 'X' ∨ c = 'x') := by
  unfold idCardMatch at h
  rw [Bool.and_eq_true, Bool.and_eq_true] at h
  obtain ⟨⟨hlen, hdig⟩, hlast⟩ := h
  rw [beq_iff_eq] at hlen
  rw [List.all_eq_true] at hdig
  have hne : l ≠ [] := by
    intro h0
    rw [h0] at hlen
    simp at hlen
  have hc : l.getLast? = some (l.getLast hne) := List.getLast?_eq_getLast l hne
  rw [hc] at hlast
  refine ⟨l.dropLast, l.getLast hne, ?_, ?_, ?_, ?_⟩
  · exact (List.dropLast_append_getLast hne).symm
  · rw [List.length_dropLast, hlen]
  · intro d hd
    have hd17 : d ∈ l.take 17 := by
      have := List.dropLast_eq_take l
      rw [this, hlen] at hd
      exact hd
    simpa [isDigitChar] using hdig d hd17
  · simpa [isDigitChar, or_assoc] using hlast

/-- Helper: 17 digits plus one digit-or-X character fully match
`^\d{17}[\dXx]$`. -/
theorem idCardMatch_of_decomp (cs : List Char) (c : Char) (h17 : cs.length = 17)
    (hd : ∀ d ∈ cs, d.isDigit) (hc : c.isDigit ∨ c = 'X' ∨ c = 'x') :
    idCardMatch (cs ++ [c]) = true := by
  unfold idCardMatch
  rw [List.take_left' h17, List.getLast?_concat]
  simp only [Bool.and_eq_true, beq_iff_eq, List.all_eq_true, List.length_append, h17]
  refine ⟨⟨rfl, fun d hdm => by simpa [isDigitChar] using hd d hdm⟩, ?_⟩
  rcases hc with h | h | h <;> simp [isDigitChar, h]

/-- Helper: the code's checksum total over a decomposed 18-character string
equals the spec's weighted sum over the first 17 digits. -/
theorem idCardTotal_decomp (cs : List Char) (c : Char) (h17 : cs.length = 17) :
    idCardTotal (cs ++ [c]) =
      (List.zipWith (fun d w => (d.toNat - 48) * w) cs idWeights).sum := by
  unfold idCardTotal digitVal
  rw [List.take_left' h17]

/-- Helper: unfolding of `validate_id_card` on a non-empty string. -/
theorem validate_id_card_nonempty (s : String) (h : s.isEmpty = false) :
    validate_id_card s =
      (if ¬ idCardMatch s.toList then (false, "请输入有效的18位身份证号码")
       else
        match s.toList.getLast? with
        | some c =>
          if c.toUpper ≠ idCheckCodes.getD (idCardTotal s.toList % 11) ' ' then
            (false, "身份证号码校验码不正确")
          else (true, "")
        | none => (false, "身份证号码格式不正确")) := by
  unfold validate_id_card
  simp only [h, Bool.false_eq_true, if_false]

/-- C7: `validate_id_card` accepts exactly the empty string and the
18-character strings whose shape and weighted-sum-mod-11 check digit are
right; a 17-digit string (no check digit) is invalid. -/
theorem validate_id_card_spec :
    (∀ s : String, validate_id_card s = (true, "") ↔ (s = "" ∨ IdCardOk s)) ∧
    (validate_id_card "11010119900101123").1 = false := by
  refine ⟨fun s => ?_, by decide⟩
  by_cases he : s.isEmpty
  · rw [String.isEmpty_iff] at he
    subst he
    have h0 : validate_id_card "" = (true, "") := by decide
    simp [h0]
  · have hne : ¬ s = "" := by
      rwa [String.isEmpty_iff] at he
    have he' : s.isEmpty = false := by
      simpa using he
    by_cases hm : idCardMatch s.toList = true
    · obtain ⟨cs, c, hl, h17, hdig, hlast⟩ := idCardMatch_decomp s.toList hm
      have hglast : s.toList.getLast? = some c := by
        rw [hl]
        exact List.getLast?_concat _
      have htot : idCardTotal s.toList =
          (List.zipWith (fun d w => (d.toNat - 48) * w) cs idWeights).sum := by
        rw [hl]
        exact idCardTotal_decomp cs c h17
      have hv : validate_id_card s =
          (if c.toUpper ≠
              idCheckCodes.getD
                ((List.zipWith (fun d w => (d.toNat - 48) * w) cs idWeights).sum % 11)
                ' ' then
            (false, "身份证号码校验码不正确")
          else (true, "")) := by
        rw [validate_id_card_nonempty s he', if_neg (not_not_intro hm), hglast, htot]
      by_cases hck :
          c.toUpper =
            idCheckCodes.getD
              ((List.zipWith (fun d w => (d.toNat - 48) * w) cs idWeights).sum % 11) ' '
      · rw [hv, if_neg (by simpa using hck)]
        constructor
        · intro _
          exact Or.inr ⟨cs, c, hl, h17, hdig, hlast, hck⟩
        · intro _
          rfl
      · rw [hv, if_pos (by simpa using hck)]
        constructor
        · intro h
          exact absurd h (by decide)
        · rintro (h | ⟨cs', c', hl', h17', -, -, hck'⟩)
          · exact absurd h hne
          · obtain ⟨hcs, hcc⟩ := List.append_inj (hl.symm.trans hl') (h17.trans h17'.symm)
            have hcc' : c = c' := by
              simpa using hcc
            rw [← hcs, ← hcc'] at hck'
            exact absurd hck' hck
    · have hv : validate_id_card s = (false, "请输入有效的18位身份证号码") := by
        rw [validate_id_card_nonempty s he', if_pos hm]
      rw [hv]
      constructor
      · intro h
        exact absurd h (by decide)
      · rintro (h | ⟨cs, c, hl, h17, hdig, hlast, -⟩)
        · exact absurd h hne
        · refine absurd ?_ hm
          rw [hl]
          exact idCardMatch_of_decomp cs c h17 hdig hlast

/-- Helper: a zero-padded decimal digit character is a digit. -/
theorem isDigitChar_ofNat (m : Nat) (h : m < 10) :
    isDigitChar (Char.ofNat (48 + m)) = true := by
  interval_cases m <;> decide

/-- Helper: both characters of `pad2` are digits. -/
theorem pad2_all_digits (n : Nat) : (pad2 n).all isDigitChar = true := by
  simp only [pad2, List.all_cons, List.all_nil, Bool.and_true, Bool.and_eq_true]
  exact ⟨isDigitChar_ofNat _ (Nat.mod_lt _ (by norm_num)),
         isDigitChar_ofNat _ (Nat.mod_lt _ (by norm_num))⟩

/-- Helper: all four characters of `pad4` are digits. -/
theorem pad4_all_digits (n : Nat) : (pad4 n).all isDigitChar = true := by
  simp only [pad4, List.all_cons, List.all_nil, Bool.and_true, Bool.and_eq_true]
  exact ⟨isDigitChar_ofNat _ (Nat.mod_lt _ (by norm_num)),
         isDigitChar_ofNat _ (Nat.mod_lt _ (by norm_num)),
         isDigitChar_ofNat _ (Nat.mod_lt _ (by norm_num)),
         isDigitChar_ofNat _ (Nat.mod_lt _ (by norm_num))⟩

/-- Helper: the timestamp part of a generated order number is 14 digit
characters. -/
theorem strftimeCompact_digits (t : Timestamp) :
    (strftimeCompact t).length = 14 ∧ (strftimeCompact t).all isDigitChar = true := by
  constructor
  · simp [strftimeCompact, pad4, pad2]
  · simp only [strftimeCompact, List.all_append, Bool.and_eq_true]
    exact ⟨⟨⟨⟨⟨pad4_all_digits _, pad2_all_digits _⟩, pad2_all_digits _⟩,
      pad2_all_digits _⟩, pad2_all_digits _⟩, pad2_all_digits _⟩

/-- Helper: an uppercased lowercase-hex nibble character is in `[A-Z0-9]`. -/
theorem hexChar_toUpper_upperAlnum :
    ∀ n : Fin 16, isUpperAlnum (hexChar n).toUpper = true := by
  decide

/-- Helper: a 23-character `ORD` + digits + upper-alnum string matches
`^ORD\d{14}[A-Z0-9]{6}$`. -/
theorem orderNoMatch_build (ts suf : List Char)
    (hts : ts.length = 14) (hsuf : suf.length = 6)
    (h1 : ts.all isDigitChar = true) (h2 : suf.all isUpperAlnum = true) :
    orderNoMatch ('O' :: 'R' :: 'D' :: (ts ++ suf)) = true := by
  unfold orderNoMatch
  have hdrop : ('O' :: 'R' :: 'D' :: (ts ++ suf)).drop 3 = ts ++ suf := rfl
  have htake : (ts ++ suf).take 14 = ts := List.take_left' hts
  have hdrop17 : ('O' :: 'R' :: 'D' :: (ts ++ suf)).drop 17 = suf := by
    show (ts ++ suf).drop 14 = suf
    exact List.drop_left' hts
  rw [hdrop, htake, hdrop17]
  simp [List.length_append, hts, hsuf, h1, h2]

/-- C5: every generated order number (any wall-clock reading with a
four-digit year, any random UUID) matches `^ORD\d{14}[A-Z0-9]{6}$` and is
accepted by `validate_order_no` with an empty error message. -/
theorem generate_order_no_valid (t : Timestamp) (uuid : List (Fin 16))
    (hy1 : 1000 ≤ t.year) (hy2 : t.year ≤ 9999)
    (hmo : t.month ≤ 99) (hd : t.day ≤ 99) (hh : t.hour ≤ 99)
    (hmi : t.minute ≤ 99) (hs : t.second ≤ 99)
    (hu : 6 ≤ uuid.length) :
    orderNoMatch (generate_order_no t uuid).toList = true ∧
    validate_order_no (generate_order_no t uuid) = (true, "") := by
  have hts := strftimeCompact_digits t
  have hsuf6 : (((uuid.map hexChar).take 6).map Char.toUpper).length = 6 := by
    rw [List.length_map, List.length_take, List.length_map]
    omega
  have hsufU : (((uuid.map hexChar).take 6).map Char.toUpper).all isUpperAlnum = true := by
    rw [List.all_eq_true]
    intro c hc
    rw [List.mem_map] at hc
    obtain ⟨c0, hc0, rfl⟩ := hc
    have := List.mem_of_mem_take hc0
    rw [List.mem_map] at this
    obtain ⟨n, -, rfl⟩ := this
    exact hexChar_toUpper_upperAlnum n
  have hmatch : orderNoMatch (generate_order_no t uuid).toList = true := by
    show orderNoMatch
      ('O' :: 'R' :: 'D' ::
        (strftimeCompact t ++ ((uuid.map hexChar).take 6).map Char.toUpper)) = true
    exact orderNoMatch_build _ _ hts.1 hsuf6 hts.2 hsufU
  refine ⟨hmatch, ?_⟩
  unfold validate_order_no
  rw [if_neg ?hne, if_pos hmatch]
  case hne =>
    intro hemp
    rw [String.isEmpty_iff] at hemp
    have : (generate_order_no t uuid).toList = [] := by
      rw [hemp]
      rfl
    simp [generate_order_no] at this

/-- C5 witness: a concrete clock reading and UUID produce a valid order
number. -/
theorem generate_order_no_valid_witness :
    validate_order_no
      (generate_order_no ⟨2026, 1, 2, 3, 4, 5⟩
        [10, 11, 0, 1, 2, 3, 4, 5, 6, 7, 8, 9, 12, 13, 14, 15]) = (true, "") :=
  (generate_order_no_valid ⟨2026, 1, 2, 3, 4, 5⟩
    [10, 11, 0, 1, 2, 3, 4, 5, 6, 7, 8, 9, 12, 13, 14, 15]
    (by decide) (by decide) (by decide) (by decide) (by decide) (by decide)
    (by decide) (by decide)).2

/-- C4: with contact name and phone present and no explicit ticket id, the
Order Agent first checks the Ticket Agent reply for `未找到`/`没有`, then
branches on the number of `票务ID: N` matches — zero asks for an id, one
books automatically, several ask the user to pick. -/
theorem handle_task_booking_decision (intent : OrderIntent) (T : String)
    (hst : intent.status ≠ some "input_required")
    (hname : truthyStr intent.contact_name = true)
    (hphone : truthyStr intent.contact_phone = true)
    (htid : truthyInt intent.ticket_id = false) :
    ((containsSub "未找到".toList T.toList || containsSub "没有".toList T.toList) = true →
       handle_task_core intent (.ok T) =
         .inputRequired ("😔 " ++ T ++
           "\n\n请调整您的出行计划：\n- 尝试其他日期\n- 尝试其他座位类型\n- 尝试其他车次/航班")) ∧
    ((containsSub "未找到".toList T.toList || containsSub "没有".toList T.toList) = false →
       (extract_ticket_ids T = [] →
          handle_task_core intent (.ok T) =
            .inputRequired ("查询到以下票务信息：\n\n" ++ T ++
              "\n\n请提供您要预订的票务ID，例如：订票务ID 123")) ∧
       (∀ tid, extract_ticket_ids T = [tid] →
          handle_task_core intent (.ok T) =
            .mcpCreateOrder (intent.ticket_type.getD "train") (Int.ofNat tid)
              (intent.quantity.getD 1) (intent.contact_name.getD "")
              (intent.contact_phone.getD "") (intent.contact_id_card.getD "")) ∧
       (∀ tid tid2 rest, extract_ticket_ids T = tid :: tid2 :: rest →
          handle_task_core intent (.ok T) =
            .inputRequired ("查询到多个票务选项：\n\n" ++ T ++
              "\n\n请指定您要预订的票务ID，例如：订票务ID " ++ toString tid))) := by
  have hv : handle_task_core intent (.ok T) =
      (if containsSub "未找到".toList T.toList ||
          containsSub "没有".toList T.toList then
        .inputRequired ("😔 " ++ T ++
          "\n\n请调整您的出行计划：\n- 尝试其他日期\n- 尝试其他座位类型\n- 尝试其他车次/航班")
      else
        match extract_ticket_ids T with
        | [] =>
          .inputRequired ("查询到以下票务信息：\n\n" ++ T ++
            "\n\n请提供您要预订的票务ID，例如：订票务ID 123")
        | [tid] =>
          .mcpCreateOrder (intent.ticket_type.getD "train") (Int.ofNat tid)
            (intent.quantity.getD 1) (intent.contact_name.getD "")
            (intent.contact_phone.getD "") (intent.contact_id_card.getD "")
        | tid :: _ :: _ =>
          .inputRequired ("查询到多个票务选项：\n\n" ++ T ++
            "\n\n请指定您要预订的票务ID，例如：订票务ID " ++ toString tid)) := by
    unfold handle_task_core
    rw [if_neg (by simp [hst]), if_neg (by simp [hname, hphone]),
      if_neg (by simp [htid])]
  constructor
  · intro hc
    rw [hv, if_pos hc]
  · intro hc
    refine ⟨fun hq => ?_, fun tid hq => ?_, fun tid tid2 rest hq => ?_⟩ <;>
      rw [hv, if_neg (by simp only [hc]; exact Bool.false_ne_true), hq]

/-- C4 witness: a concrete intent with contact info and the reply
`票务ID: 5` produce an automatic create-order call for ticket 5. -/
theorem handle_task_booking_decision_witness :
    handle_task_core
      ⟨some "ready", none, some "train", none, some 2, some "张三",
       some "13800138000", some ""⟩ (.ok "票务ID: 5") =
      .mcpCreateOrder "train" 5 2 "张三" "13800138000" "" :=
  ((handle_task_booking_decision
      ⟨some "ready", none, some "train", none, some 2, some "张三",
       some "13800138000", some ""⟩ "票务ID: 5"
      (by decide) (by decide) (by decide) (by decide)).2
    (by decide)).2.1 5 (by decide)

/-- C3 counterexample: when the connection is down and reconnection fails,
`execute_query` raises (`_ensure_connection()` runs before the `try` block
and `_connect` re-raises), instead of returning a JSON envelope. -/
theorem execute_query_raises_on_failed_reconnect :
    execute_query
      ⟨true, false, "2003 (HY000): Can not connect to MySQL server", Except.ok []⟩ =
      Except.error "2003 (HY000): Can not connect to MySQL server" := rfl

/-- C3 (amended): whenever the connection step does not itself fail,
`execute_query` returns — never raises — exactly one of the three JSON
envelopes: `success` with the converted rows when the result set is
non-empty, `no_data` with `未找到数据` when it is empty, `error` with the
driver message on a database error. -/
theorem execute_query_shapes (env : DbEnv)
    (hconn : env.reconnectNeeded = false ∨ env.reconnectOk = true) :
    (∃ rows, env.queryOutcome = .ok rows ∧ rows ≠ [] ∧
       execute_query env = .ok (.jObj [("status", .jStr "success"),
         ("data", .jArr (rows.map (fun r => .jObj (encodeRow r))))])) ∨
    (env.queryOutcome = .ok [] ∧
       execute_query env = .ok (.jObj [("status", .jStr "no_data"),
         ("message", .jStr "未找到数据")])) ∨
    (∃ e, env.queryOutcome = .error e ∧
       execute_query env = .ok (.jObj [("status", .jStr "error"),
         ("message", .jStr e)])) := by
  have hc : ¬ (env.reconnectNeeded = true ∧ ¬ env.reconnectOk = true) := by
    rcases hconn with h | h <;> simp [h]
  unfold execute_query
  rw [if_neg hc]
  cases hq : env.queryOutcome with
  | error e =>
    exact Or.inr (Or.inr ⟨e, rfl, rfl⟩)
  | ok rows =>
    cases rows with
    | nil => exact Or.inr (Or.inl ⟨rfl, rfl⟩)
    | cons r rs =>
      exact Or.inl ⟨r :: rs, rfl, by simp, by simp [List.isEmpty]⟩

/-- C3 witness: a live connection and an empty result set yield the
`no_data` envelope. -/
theorem execute_query_shapes_witness :
    execute_query ⟨false, true, "", Except.ok []⟩ =
      .ok (.jObj [("status", .jStr "no_data"), ("message", .jStr "未找到数据")]) := by
  have h := execute_query_shapes ⟨false, true, "", Except.ok []⟩ (Or.inl rfl)
  rcases h with ⟨rows, hr, hne, -⟩ | ⟨-, hq⟩ | ⟨e, he, -⟩
  · cases hr
    exact absurd rfl hne
  · exact hq
  · cases he

/-- C9: the health-check exit code is zero exactly when the database probe and
all seven service probes succeed, and is one otherwise. -/
theorem health_check_exit_code_spec (o : HealthOutcomes) :
    (health_exit_code o = 0 ↔
      (o.db = true ∧ o.weatherMcp = true ∧ o.ticketMcp = true ∧ o.orderMcp = true ∧
       o.weatherAgent = true ∧ o.ticketAgent = true ∧ o.orderAgent = true ∧
       o.web = true)) ∧
    (health_exit_code o = 0 ∨ health_exit_code o = 1) := by
  constructor
  · simp [health_exit_code, all_healthy, serviceResults]
    tauto
  · unfold health_exit_code
    split <;> simp

/-! ## Order backend lemmas -/

/-- Helper: `pendingSum` over the empty order table. -/
theorem pendingSum_nil (tt : TicketType) (tid : Int) : pendingSum [] tt tid = 0 := rfl

/-- Helper: `pendingSum` over a cons cell. -/
theorem pendingSum_cons (p : String × OrderRow) (L : List (String × OrderRow))
    (tt : TicketType) (tid : Int) :
    pendingSum (p :: L) tt tid =
      (if (p.2.status == "pending" && refsTicket p.2 tt tid) = true
       then p.2.quantity else 0) + pendingSum L tt tid := by
  unfold pendingSum
  rw [List.filter_cons]
  split
  · simp
  · simp

/-- Helper: `pendingSum` over an appended order table. -/
theorem pendingSum_append (L1 L2 : List (String × OrderRow)) (tt : TicketType)
    (tid : Int) :
    pendingSum (L1 ++ L2) tt tid = pendingSum L1 tt tid + pendingSum L2 tt tid := by
  unfold pendingSum
  rw [List.filter_append, List.map_append, List.sum_append]

/-- Helper: pending quantities at least one make `pendingSum` non-negative. -/
theorem pendingSum_nonneg (L : List (String × OrderRow)) (tt : TicketType) (tid : Int)
    (h : ∀ p ∈ L, p.2.status = "pending" → 1 ≤ p.2.quantity) :
    0 ≤ pendingSum L tt tid := by
  induction L with
  | nil => simp [pendingSum_nil]
  | cons p L ih =>
    rw [pendingSum_cons]
    have h1 := ih (fun r hr hs => h r (List.mem_cons_of_mem _ hr) hs)
    by_cases hc : (p.2.status == "pending" && refsTicket p.2 tt tid) = true
    · have hp : p.2.status = "pending" := by
        rw [Bool.and_eq_true, beq_iff_eq] at hc
        exact hc.1
      have h2 := h p (List.mem_cons_self _ _) hp
      rw [if_pos hc]
      omega
    · rw [if_neg hc]
      omega

/-- Helper: cancelling an order number only removes pending quantity. -/
theorem pendingSum_cancel_le (L : List (String × OrderRow)) (k : String)
    (tt : TicketType) (tid : Int)
    (h : ∀ p ∈ L, p.2.status = "pending" → 1 ≤ p.2.quantity) :
    pendingSum (L.map (cancelEntry k)) tt tid ≤ pendingSum L tt tid := by
  induction L with
  | nil => simp [pendingSum_nil]
  | cons p L ih =>
    have ih' := ih (fun r hr hs => h r (List.mem_cons_of_mem _ hr) hs)
    rw [List.map_cons, pendingSum_cons, pendingSum_cons]
    by_cases hk : (p.1 == k) = true
    · have hL : cancelEntry k p = (p.1, { p.2 with status := "cancelled" }) := by
        simp [cancelEntry, hk]
      rw [hL]
      have hcondL :
          (((p.1, { p.2 with status := "cancelled" }).2.status == "pending") &&
            refsTicket (p.1, { p.2 with status := "cancelled" }).2 tt tid) = false := by
        simp
      rw [hcondL]
      simp only [Bool.false_eq_true, if_false]
      by_cases hcR : (p.2.status == "pending" && refsTicket p.2 tt tid) = true
      · have hp : p.2.status = "pending" := by
          rw [Bool.and_eq_true, beq_iff_eq] at hcR
          exact hcR.1
        have h2 := h p (List.mem_cons_self _ _) hp
        rw [if_pos hcR]
        omega
      · rw [if_neg hcR]
        omega
    · have hL : cancelEntry k p = p := by
        simp [cancelEntry, hk]
      rw [hL]
      exact add_le_add_left ih' _

/-- Helper: cancelling removes at least the first matching pending order's
quantity from `pendingSum` at the ticket that order references. -/
theorem pendingSum_cancel_mem (L : List (String × OrderRow)) (k : String)
    (o : OrderRow) (tt : TicketType) (tid : Int)
    (h : ∀ p ∈ L, p.2.status = "pending" → 1 ≤ p.2.quantity)
    (hmem : (k, o) ∈ L) (hpend : o.status = "pending")
    (href : refsTicket o tt tid = true) :
    pendingSum (L.map (cancelEntry k)) tt tid + o.quantity ≤ pendingSum L tt tid := by
  induction L with
  | nil => cases hmem
  | cons p L ih =>
    have htail : ∀ r ∈ L, r.2.status = "pending" → 1 ≤ r.2.quantity :=
      fun r hr hs => h r (List.mem_cons_of_mem _ hr) hs
    rw [List.map_cons, pendingSum_cons, pendingSum_cons]
    rcases List.mem_cons.mp hmem with heq | hmem'
    · have hkk : (p.1 == k) = true := by
        rw [← heq]
        exact beq_self_eq_true k
      have hL : cancelEntry k p = (p.1, { p.2 with status := "cancelled" }) := by
        simp [cancelEntry, hkk]
      rw [hL]
      have hcondL :
          (((p.1, { p.2 with status := "cancelled" }).2.status == "pending") &&
            refsTicket (p.1, { p.2 with status := "cancelled" }).2 tt tid) = false := by
        simp
      rw [hcondL]
      simp only [Bool.false_eq_true, if_false]
      have hcondR : (p.2.status == "pending" && refsTicket p.2 tt tid) = true := by
        rw [← heq]
        simp [hpend, href]
      rw [if_pos hcondR]
      have hle := pendingSum_cancel_le L k tt tid htail
      have hqo : p.2.quantity = o.quantity := by
        rw [← heq]
      omega
    · have ih' := ih htail hmem'
      by_cases hk : (p.1 == k) = true
      · have hL : cancelEntry k p = (p.1, { p.2 with status := "cancelled" }) := by
          simp [cancelEntry, hk]
        rw [hL]
        have hcondL :
            (((p.1, { p.2 with status := "cancelled" }).2.status == "pending") &&
              refsTicket (p.1, { p.2 with status := "cancelled" }).2 tt tid) = false := by
          simp
        rw [hcondL]
        simp only [Bool.false_eq_true, if_false]
        by_cases hcR : (p.2.status == "pending" && refsTicket p.2 tt tid) = true
        · have hp : p.2.status = "pending" := by
            rw [Bool.and_eq_true, beq_iff_eq] at hcR
            exact hcR.1
          have h2 := h p (List.mem_cons_self _ _) hp
          rw [if_pos hcR]
          omega
        · rw [if_neg hcR]
          omega
      · have hL : cancelEntry k p = p := by
          simp [cancelEntry, hk]
        rw [hL]
        omega

/-- Helper: `find?` by key on an order table whose existing keys all differ
from the appended key finds the appended row. -/
theorem find?_append_key (L : List (String × OrderRow)) (k : String) (o : OrderRow)
    (h : ∀ p ∈ L, p.1 ≠ k) :
    (L ++ [(k, o)]).find? (fun p => p.1 == k) = some (k, o) := by
  induction L with
  | nil => simp [List.find?]
  | cons p L ih =>
    rw [List.cons_append, List.find?_cons_of_neg, ih]
    · intro r hr hrk
      exact h r (List.mem_cons_of_mem _ hr) hrk
    · have := h p (List.mem_cons_self _ _)
      simp [this]

/-- Helper: the status update by key leaves rows with other keys unchanged
and cancels the appended row. -/
theorem map_cancel_append (L : List (String × OrderRow)) (k : String) (o : OrderRow)
    (h : ∀ p ∈ L, p.1 ≠ k) :
    (L ++ [(k, o)]).map (cancelEntry k) =
      L ++ [(k, { o with status := "cancelled" })] := by
  rw [List.map_append]
  congr 1
  · have hid : ∀ p ∈ L, cancelEntry k p = p := by
      intro p hp
      simp [cancelEntry, h p hp]
    calc L.map (cancelEntry k) = L.map id := List.map_congr_left hid
    _ = L := List.map_id L
  · simp [cancelEntry]

/-- Helper: full evaluation of a successful `create_order` (row found, enough
seats, positive quantity, insert succeeds). -/
theorem create_order_success_eq (s : DBState) (ty : String) (tt : TicketType)
    (tid q : Int) (row : TicketRow) (cn cp cic ono : String)
    (htt : table_map ty = some tt) (hrow : s.tickets tt tid = some row)
    (hq0 : q ≠ 0) (hqR : q ≤ row.remaining_seats) :
    create_order s ty tid q cn cp cic ono true =
      ({ tickets := fun t i =>
           if t = tt ∧ i = tid then
             some { row with remaining_seats := row.remaining_seats - q }
           else s.tickets t i,
         orders := s.orders ++
           [(ono, { ticket_type := ty, ticket_id := tid, quantity := q,
                    unit_price := row.price, total_price := row.price * (q : ℚ),
                    contact_name := cn, contact_phone := cp, contact_id_card := cic,
                    status := "pending" })] },
       .okOrder { ticket_type := ty, ticket_id := tid, quantity := q,
                  unit_price := row.price, total_price := row.price * (q : ℚ),
                  contact_name := cn, contact_phone := cp, contact_id_card := cic,
                  status := "pending" }) := by
  have hqne : (q != 0) = true := by
    rw [bne_iff_ne]
    exact hq0
  have h1 : ¬ row.remaining_seats < q := by omega
  have h2 : q ≤ row.remaining_seats := by omega
  simp only [create_order, get_ticket_info, update_remaining_seats, htt, hrow,
    h1, h2, hqne, if_true, if_false, not_true, Bool.true_eq_false, not_false_iff,
    ite_true, ite_false, Bool.not_true, reduceIte]

/-- Helper: full evaluation of a successful `cancel_order` (pending order
found, ticket row present). -/
theorem cancel_order_success_eq (s : DBState) (k : String) (o : OrderRow)
    (tt : TicketType) (row : TicketRow)
    (hfind : s.orders.find? (fun p => p.1 == k) = some (k, o))
    (hpend : o.status = "pending")
    (htt : table_map o.ticket_type = some tt)
    (hrow : s.tickets tt o.ticket_id = some row)
    (hcond : -o.quantity ≤ row.remaining_seats) :
    cancel_order s k =
      ({ tickets := fun t i =>
           if t = tt ∧ i = o.ticket_id then
             some { row with remaining_seats := row.remaining_seats + o.quantity }
           else s.tickets t i,
         orders := s.orders.map (cancelEntry k) }, .okMsg "订单已取消") := by
  unfold cancel_order
  rw [hfind]
  dsimp only
  rw [if_neg (by simp [hpend])]
  simp only [update_remaining_seats, htt, hrow, hcond, if_true, ite_true, reduceIte,
    sub_neg_eq_add]

/-- Helper: `cancel_order` on a found non-pending order rejects and leaves the
state unchanged. -/
theorem cancel_order_nonpending_eq (s : DBState) (k : String) (o : OrderRow)
    (hfind : s.orders.find? (fun p => p.1 == k) = some (k, o))
    (hnp : o.status ≠ "pending") :
    cancel_order s k = (s, .err "只能取消待支付的订单") := by
  unfold cancel_order
  rw [hfind]
  dsimp only
  rw [if_pos hnp]

/-- C1: a successful creation for `1 ≤ q ≤ R` leaves `R - q` seats and returns
a pending order priced `unit_price * q`; cancelling it restores `R` seats and
marks it cancelled; cancelling again is rejected with
`只能取消待支付的订单` and changes nothing. -/
theorem create_cancel_roundtrip (s : DBState) (ty : String) (tt : TicketType)
    (tid q : Int) (row : TicketRow) (cn cp cic ono : String)
    (htt : table_map ty = some tt) (hrow : s.tickets tt tid = some row)
    (hq1 : 1 ≤ q) (hqR : q ≤ row.remaining_seats)
    (hfresh : ∀ p ∈ s.orders, p.1 ≠ ono) :
    ∃ s1 data s2,
      create_order s ty tid q cn cp cic ono true = (s1, .okOrder data) ∧
      data.total_price = row.price * (q : ℚ) ∧
      data.status = "pending" ∧
      remainingAt s1 ty tid = some (row.remaining_seats - q) ∧
      cancel_order s1 ono = (s2, .okMsg "订单已取消") ∧
      orderStatus s2 ono = some "cancelled" ∧
      remainingAt s2 ty tid = some row.remaining_seats ∧
      cancel_order s2 ono = (s2, .err "只能取消待支付的订单") := by
  have hcreate := create_order_success_eq s ty tt tid q row cn cp cic ono htt hrow (by omega) hqR
  have hcancel := cancel_order_success_eq
    ({ tickets := fun t i =>
         if t = tt ∧ i = tid then
           some { row with remaining_seats := row.remaining_seats - q }
         else s.tickets t i,
       orders := s.orders ++
         [(ono, { ticket_type := ty, ticket_id := tid, quantity := q,
                  unit_price := row.price, total_price := row.price * (q : ℚ),
                  contact_name := cn, contact_phone := cp, contact_id_card := cic,
                  status := "pending" })] })
    ono
    { ticket_type := ty, ticket_id := tid, quantity := q,
      unit_price := row.price, total_price := row.price * (q : ℚ),
      contact_name := cn, contact_phone := cp, contact_id_card := cic,
      status := "pending" }
    tt { row with remaining_seats := row.remaining_seats - q }
    (find?_append_key s.orders ono _ hfresh) rfl htt
    (by
      show (if tt = tt ∧ tid = tid then _ else _) = _
      rw [if_pos ⟨rfl, rfl⟩])
    (by dsimp only; omega)
  refine ⟨_, _, _, hcreate, rfl, rfl, ?_, hcancel, ?_, ?_, ?_⟩
  · unfold remainingAt get_ticket_info
    rw [htt]
    show ((if tt = tt ∧ tid = tid then
        some { row with remaining_seats := row.remaining_seats - q }
      else s.tickets tt tid).map (fun r => r.remaining_seats)) = _
    rw [if_pos ⟨rfl, rfl⟩]
    rfl
  · unfold orderStatus
    dsimp only
    rw [map_cancel_append s.orders ono _ hfresh, find?_append_key s.orders ono _ hfresh]
    rfl
  · unfold remainingAt get_ticket_info
    rw [htt]
    dsimp only
    rw [if_pos ⟨rfl, rfl⟩]
    simp only [Option.map_some']
    congr 1
    omega
  · refine cancel_order_nonpending_eq _ ono
      { ticket_type := ty, ticket_id := tid, quantity := q,
        unit_price := row.price, total_price := row.price * (q : ℚ),
        contact_name := cn, contact_phone := cp, contact_id_card := cic,
        status := "cancelled" } ?_ (by dsimp only; decide)
    dsimp only
    rw [map_cancel_append s.orders ono _ hfresh, find?_append_key s.orders ono _ hfresh]

/-- C1 witness: booking 2 of 10 seats on the demonstration ticket, then
cancelling twice, behaves as stated. -/
theorem create_cancel_roundtrip_witness :
    ∃ s1 data s2,
      create_order demoState "train" 1 2 "张三" "13800138000" ""
          "ORD00000000000000AAAAAA" true = (s1, .okOrder data) ∧
      data.total_price = (100 : ℚ) * ((2 : Int) : ℚ) ∧
      data.status = "pending" ∧
      remainingAt s1 "train" 1 = some (10 - 2) ∧
      cancel_order s1 "ORD00000000000000AAAAAA" = (s2, .okMsg "订单已取消") ∧
      orderStatus s2 "ORD00000000000000AAAAAA" = some "cancelled" ∧
      remainingAt s2 "train" 1 = some 10 ∧
      cancel_order s2 "ORD00000000000000AAAAAA" =
        (s2, .err "只能取消待支付的订单") :=
  create_cancel_roundtrip demoState "train" .train 1 2 ⟨10, 10, 100⟩
    "张三" "13800138000" "" "ORD00000000000000AAAAAA" rfl rfl
    (by decide) (by decide) (by intro p hp; cases hp)

/-- C2: on every input, `create_order` either succeeds or fails with one of
the four structured messages (`票务不存在`, `余票不足，当前仅剩 N 张` with the
current count, `库存扣减失败，请重试`, `订单创建失败`), and on every failure
path the referenced ticket's remaining seats are net unchanged. -/
theorem create_order_error_atomicity (s : DBState) (ty : String) (tid q : Int)
    (cn cp cic ono : String) (insertOk : Bool)
    (hnn : ∀ r, get_ticket_info s ty tid = some r → 0 ≤ r.remaining_seats) :
    (∃ data, (create_order s ty tid q cn cp cic ono insertOk).2 = .okOrder data) ∨
    (((create_order s ty tid q cn cp cic ono insertOk).2 = .err "票务不存在" ∨
      (∃ r, get_ticket_info s ty tid = some r ∧ r.remaining_seats < q ∧
        (create_order s ty tid q cn cp cic ono insertOk).2 =
          .err ("余票不足，当前仅剩 " ++ toString r.remaining_seats ++ " 张")) ∨
      (create_order s ty tid q cn cp cic ono insertOk).2 =
        .err "库存扣减失败，请重试" ∨
      (create_order s ty tid q cn cp cic ono insertOk).2 = .err "订单创建失败") ∧
     remainingAt (create_order s ty tid q cn cp cic ono insertOk).1 ty tid =
       remainingAt s ty tid) := by
  cases hty : table_map ty with
  | none =>
    refine Or.inr ⟨Or.inl ?_, ?_⟩ <;>
      simp [create_order, get_ticket_info, remainingAt, hty]
  | some tt =>
    cases hrow : s.tickets tt tid with
    | none =>
      refine Or.inr ⟨Or.inl ?_, ?_⟩ <;>
        simp [create_order, get_ticket_info, remainingAt, hty, hrow]
    | some row =>
      have hget : get_ticket_info s ty tid = some row := by
        simp [get_ticket_info, hty, hrow]
      by_cases hlt : row.remaining_seats < q
      · refine Or.inr ⟨Or.inr (Or.inl ⟨row, hget, hlt, ?_⟩), ?_⟩ <;>
          simp [create_order, hget, hlt]
      · by_cases hq0 : q = 0
        · subst hq0
          have hle : (0 : Int) ≤ row.remaining_seats := by omega
          refine Or.inr ⟨Or.inr (Or.inr (Or.inl ?_)), ?_⟩
          · simp [create_order, update_remaining_seats, hget, hty, hrow, hlt, hle]
          · simp only [create_order, update_remaining_seats, hget, hty, hrow, hlt,
              hle, if_true, if_false, ite_true, ite_false, reduceIte, bne_self_eq_false,
              Bool.false_eq_true, not_false_iff]
            unfold remainingAt get_ticket_info
            rw [hty]
            dsimp only
            simp [hrow]
        · have hqle : q ≤ row.remaining_seats := by omega
          have hqne : (q != 0) = true := by
            rw [bne_iff_ne]
            exact hq0
          cases insertOk with
          | true =>
            refine Or.inl
              ⟨{ ticket_type := ty, ticket_id := tid, quantity := q,
                 unit_price := row.price, total_price := row.price * (q : ℚ),
                 contact_name := cn, contact_phone := cp, contact_id_card := cic,
                 status := "pending" }, ?_⟩
            rw [create_order_success_eq s ty tt tid q row cn cp cic ono hty hrow hq0 hqle]
          | false =>
            have hr0 : 0 ≤ row.remaining_seats := hnn row hget
            have hcomp : -q ≤ row.remaining_seats - q := by omega
            refine Or.inr ⟨Or.inr (Or.inr (Or.inr ?_)), ?_⟩
            · simp only [create_order, get_ticket_info, update_remaining_seats,
                hty, hrow, hlt, hqle, hqne, hcomp, if_true, if_false, ite_true,
                ite_false, reduceIte, not_true, Bool.true_eq_false, not_false_iff,
                Bool.false_eq_true]
            · simp only [create_order, get_ticket_info, update_remaining_seats,
                hty, hrow, hlt, hqle, hqne, hcomp, and_self, eq_self_iff_true,
                if_true, if_false, ite_true, ite_false, reduceIte, not_true,
                Bool.true_eq_false, not_false_iff, Bool.false_eq_true]
              unfold remainingAt get_ticket_info
              rw [hty]
              simp only [and_self, eq_self_iff_true, ite_true, hrow, Option.map_some']
              congr 1
              omega

/-- C2 witness: ordering 15 of 10 remaining seats fails with the
seat-count message and leaves the inventory unchanged. -/
theorem create_order_error_atomicity_witness :
    (create_order demoState "train" 1 15 "张三" "13800138000" "" "ORDW" true).2 =
      .err ("余票不足，当前仅剩 " ++ toString (10 : Int) ++ " 张") ∧
    remainingAt (create_order demoState "train" 1 15 "张三" "13800138000" "" "ORDW"
        true).1 "train" 1 = remainingAt demoState "train" 1 := by
  have hget0 : get_ticket_info demoState "train" 1 = some ⟨10, 10, 100⟩ := rfl
  have h := create_order_error_atomicity demoState "train" 1 15 "张三" "13800138000"
    "" "ORDW" true ?hnn
  case hnn =>
    intro r hr
    rw [hget0] at hr
    cases hr
    decide
  rcases h with ⟨d, hd⟩ | ⟨hmsg, hrem⟩
  · rw [show (create_order demoState "train" 1 15 "张三" "13800138000" "" "ORDW"
        true).2 = .err ("余票不足，当前仅剩 " ++ toString (10 : Int) ++ " 张")
      from by decide] at hd
    cases hd
  · refine ⟨?_, hrem⟩
    rcases hmsg with h1 | ⟨r, hr, hlt, h2⟩ | h3 | h4
    · exact absurd h1 (by decide)
    · rw [hget0] at hr
      cases hr
      exact h2
    · exact absurd h3 (by decide)
    · exact absurd h4 (by decide)

/-- Helper: the demonstration state satisfies the seat bounds and the
pending-deduction accounting. -/
theorem demoState_deducted : SeatBounds demoState ∧ Deducted demoState := by
  have htk : ∀ tt tid row, demoState.tickets tt tid = some row →
      row = ⟨10, 10, 100⟩ := by
    intro tt tid row h
    unfold demoState demoTickets at h
    dsimp only at h
    split at h
    · cases h
      rfl
    · cases h
  refine ⟨?_, ?_, ?_⟩
  · intro tt tid row h
    rw [htk tt tid row h]
    exact ⟨by decide, by decide⟩
  · intro tt tid row h
    rw [htk tt tid row h]
    refine ⟨by decide, ?_⟩
    show (10 : Int) + pendingSum demoState.orders tt tid ≤ 10
    rw [show demoState.orders = [] from rfl, pendingSum_nil]
    omega
  · intro p hp
    rw [show demoState.orders = [] from rfl] at hp
    cases hp

/-- C6 counterexample: from a state satisfying the claim's initial condition,
the single backend call `create_order("train", 1, quantity := -1, ...)`
(accepted by the code, deducting a negative quantity) drives
`remaining_seats` to 11 of 10, violating `remaining_seats ≤ total_seats`. -/
theorem seat_bounds_claim_counterexample :
    (SeatBounds demoState ∧ Deducted demoState) ∧
    ¬ SeatBounds (run demoState
      [.createOp "train" 1 (-1) "张三" "13800138000" "" "ORDC" true]) := by
  refine ⟨demoState_deducted, ?_⟩
  intro h
  have hrow : (run demoState
      [Op.createOp "train" 1 (-1) "张三" "13800138000" "" "ORDC" true]).tickets
        .train 1 = some ⟨10, 11, 100⟩ := by decide
  have := (h .train 1 ⟨10, 11, 100⟩ hrow).2
  exact absurd this (by decide)

/-- Helper: the pending-deduction accounting implies the seat bounds. -/
theorem Deducted_seatBounds (s : DBState) (h : Deducted s) : SeatBounds s := by
  intro tt tid row hr
  obtain ⟨h1, h2⟩ := h
  obtain ⟨ha, hb⟩ := h1 tt tid row hr
  have := pendingSum_nonneg s.orders tt tid h2
  exact ⟨ha, by omega⟩

/-- Helper: full evaluation of `create_order` when the conditional decrement
succeeds but the order-row insert fails (the compensation path). -/
theorem create_order_insertfail_eq (s : DBState) (ty : String) (tt : TicketType)
    (tid q : Int) (row : TicketRow) (cn cp cic ono : String)
    (htt : table_map ty = some tt) (hrow : s.tickets tt tid = some row)
    (hq0 : q ≠ 0) (hqR : q ≤ row.remaining_seats) (hr0 : 0 ≤ row.remaining_seats) :
    create_order s ty tid q cn cp cic ono false =
      ({ tickets := fun t i =>
           if t = tt ∧ i = tid then
             some { row with remaining_seats := row.remaining_seats - q - -q }
           else
             if t = tt ∧ i = tid then
               some { row with remaining_seats := row.remaining_seats - q }
             else s.tickets t i,
         orders := s.orders }, .err "订单创建失败") := by
  have hqne : (q != 0) = true := by
    rw [bne_iff_ne]
    exact hq0
  have hlt : ¬ row.remaining_seats < q := by omega
  have hcomp : -q ≤ row.remaining_seats - q := by omega
  simp only [create_order, get_ticket_info, update_remaining_seats, htt, hrow,
    hlt, hqR, hqne, hcomp, and_self, eq_self_iff_true, if_true, if_false,
    ite_true, ite_false, reduceIte, not_true, Bool.true_eq_false, not_false_iff,
    Bool.false_eq_true]

/-- Helper: evaluation of `cancel_order` on a found pending order, up to the
seat-restoring update. -/
theorem cancel_order_eq (s : DBState) (k : String) (o : OrderRow)
    (hfind : s.orders.find? (fun p => p.1 == k) = some (k, o))
    (hpend : o.status = "pending") :
    cancel_order s k =
      ((update_remaining_seats
          { tickets := s.tickets, orders := s.orders.map (cancelEntry k) }
          o.ticket_type o.ticket_id (-o.quantity)).1, .okMsg "订单已取消") := by
  unfold cancel_order
  rw [hfind]
  dsimp only
  rw [if_neg (by simp [hpend])]

/-- Helper: each order-backend call with a positive created quantity
preserves the pending-deduction accounting. -/
theorem step_preserves_deducted (s : DBState) (op : Op) (h : Deducted s)
    (hop : OpQuantityPos op) : Deducted (step s op) := by
  obtain ⟨h1, h2⟩ := h
  cases op with
  | queryOp k => exact ⟨h1, h2⟩
  | listOp a b c => exact ⟨h1, h2⟩
  | createOp ty tid q cn cp cic ono insertOk =>
    have hq1 : 1 ≤ q := hop
    show Deducted (create_order s ty tid q cn cp cic ono insertOk).1
    cases hty : table_map ty with
    | none =>
      have hv : create_order s ty tid q cn cp cic ono insertOk =
          (s, .err "票务不存在") := by
        simp [create_order, get_ticket_info, hty]
      rw [hv]
      exact ⟨h1, h2⟩
    | some tt =>
      cases hrow : s.tickets tt tid with
      | none =>
        have hv : create_order s ty tid q cn cp cic ono insertOk =
            (s, .err "票务不存在") := by
          simp [create_order, get_ticket_info, hty, hrow]
        rw [hv]
        exact ⟨h1, h2⟩
      | some row =>
        by_cases hlt : row.remaining_seats < q
        · have hv : create_order s ty tid q cn cp cic ono insertOk =
              (s, .err ("余票不足，当前仅剩 " ++ toString row.remaining_seats ++
                " 张")) := by
            simp [create_order, get_ticket_info, hty, hrow, hlt]
          rw [hv]
          exact ⟨h1, h2⟩
        · have hqle : q ≤ row.remaining_seats := by omega
          cases insertOk with
          | false =>
            have hr0 : 0 ≤ row.remaining_seats := (h1 tt tid row hrow).1
            rw [create_order_insertfail_eq s ty tt tid q row cn cp cic ono hty hrow
              (by omega) hqle hr0]
            refine ⟨?_, h2⟩
            intro tt' tid' row' hr'
            dsimp only at hr'
            split at hr'
            next hcase =>
              obtain ⟨he1, he2⟩ := hcase
              subst he1
              subst he2
              cases hr'
              obtain ⟨ha, hb⟩ := h1 tt' tid' row hrow
              exact ⟨by dsimp only; omega, by dsimp only; omega⟩
            next hne =>
              exact h1 tt' tid' row' hr'
          | true =>
            rw [create_order_success_eq s ty tt tid q row cn cp cic ono hty hrow
              (by omega) hqle]
            constructor
            · intro tt' tid' row' hr'
              dsimp only at hr'
              show _ ∧ _ + pendingSum (s.orders ++ _) tt' tid' ≤ _
              rw [pendingSum_append, pendingSum_cons, pendingSum_nil]
              split at hr'
              next hcase =>
                obtain ⟨he1, he2⟩ := hcase
                subst he1
                subst he2
                cases hr'
                obtain ⟨ha, hb⟩ := h1 tt' tid' row hrow
                split
                next =>
                  exact ⟨by dsimp only; omega, by dsimp only; omega⟩
                next hfc =>
                  exfalso
                  apply hfc
                  simp [refsTicket, hty]
              next hne =>
                obtain ⟨ha, hb⟩ := h1 tt' tid' row' hr'
                split
                next hfc =>
                  exfalso
                  rw [Bool.and_eq_true] at hfc
                  have hrefs := hfc.2
                  unfold refsTicket at hrefs
                  dsimp only at hrefs
                  rw [hty, Bool.and_eq_true, beq_iff_eq, beq_iff_eq] at hrefs
                  obtain ⟨hrt, hri⟩ := hrefs
                  cases hrt
                  exact hne ⟨rfl, hri.symm⟩
                next =>
                  exact ⟨ha, by omega⟩
            · intro p hp hps
              rcases List.mem_append.mp hp with hp | hp
              · exact h2 p hp hps
              · have hpe := List.mem_singleton.mp hp
                subst hpe
                exact hq1
  | cancelOp k =>
    show Deducted (cancel_order s k).1
    cases hfind : s.orders.find? (fun p => p.1 == k) with
    | none =>
      have hv : cancel_order s k = (s, .err "订单不存在") := by
        unfold cancel_order
        rw [hfind]
      rw [hv]
      exact ⟨h1, h2⟩
    | some p =>
      obtain ⟨k0, o⟩ := p
      have hk0 : k0 = k := by
        have := (List.find?_eq_some.mp hfind).1
        simpa [beq_iff_eq] using this
      subst hk0
      have hmem : (k0, o) ∈ s.orders := List.mem_of_find?_eq_some hfind
      by_cases hpend : o.status = "pending"
      case neg =>
        rw [cancel_order_nonpending_eq s k0 o hfind hpend]
        exact ⟨h1, h2⟩
      case pos =>
        rw [cancel_order_eq s k0 o hfind hpend]
        have horders : ∀ p ∈ s.orders.map (cancelEntry k0),
            p.2.status = "pending" → 1 ≤ p.2.quantity := by
          intro p hp hps
          rw [List.mem_map] at hp
          obtain ⟨p0, hp0, rfl⟩ := hp
          by_cases hkk : (p0.1 == k0) = true
          · have h3 : cancelEntry k0 p0 = (p0.1, { p0.2 with status := "cancelled" }) := by
              simp [cancelEntry, hkk]
            rw [h3] at hps
            exact absurd hps (by dsimp only; decide)
          · have h3 : cancelEntry k0 p0 = p0 := by
              simp [cancelEntry, hkk]
            rw [h3] at hps ⊢
            exact h2 p0 hp0 hps
        have hq1 : 1 ≤ o.quantity := h2 (k0, o) hmem hpend
        cases hty0 : table_map o.ticket_type with
        | none =>
          have hv : update_remaining_seats
              { tickets := s.tickets, orders := s.orders.map (cancelEntry k0) }
              o.ticket_type o.ticket_id (-o.quantity) =
              ({ tickets := s.tickets, orders := s.orders.map (cancelEntry k0) },
               false) := by
            unfold update_remaining_seats
            rw [hty0]
          rw [hv]
          dsimp only
          refine ⟨?_, horders⟩
          intro tt' tid' row' hr'
          obtain ⟨ha, hb⟩ := h1 tt' tid' row' hr'
          have hle := pendingSum_cancel_le s.orders k0 tt' tid' h2
          refine ⟨ha, ?_⟩
          dsimp only
          omega
        | some tt0 =>
          cases hrow0 : s.tickets tt0 o.ticket_id with
          | none =>
            have hv : update_remaining_seats
                { tickets := s.tickets, orders := s.orders.map (cancelEntry k0) }
                o.ticket_type o.ticket_id (-o.quantity) =
                ({ tickets := s.tickets, orders := s.orders.map (cancelEntry k0) },
                 false) := by
              unfold update_remaining_seats
              rw [hty0]
              dsimp only
              rw [hrow0]
            rw [hv]
            dsimp only
            refine ⟨?_, horders⟩
            intro tt' tid' row' hr'
            obtain ⟨ha, hb⟩ := h1 tt' tid' row' hr'
            have hle := pendingSum_cancel_le s.orders k0 tt' tid' h2
            refine ⟨ha, ?_⟩
            dsimp only
            omega
          | some row0 =>
            have hr00 : 0 ≤ row0.remaining_seats := (h1 tt0 o.ticket_id row0 hrow0).1
            have hcond : -o.quantity ≤ row0.remaining_seats := by omega
            have hv : update_remaining_seats
                { tickets := s.tickets, orders := s.orders.map (cancelEntry k0) }
                o.ticket_type o.ticket_id (-o.quantity) =
                ({ tickets := fun t i =>
                     if t = tt0 ∧ i = o.ticket_id then
                       some { row0 with
                         remaining_seats := row0.remaining_seats - -o.quantity }
                     else s.tickets t i,
                   orders := s.orders.map (cancelEntry k0) },
                 (-o.quantity != 0)) := by
              unfold update_remaining_seats
              rw [hty0]
              dsimp only
              rw [hrow0]
              dsimp only
              rw [if_pos hcond]
            rw [hv]
            dsimp only
            refine ⟨?_, horders⟩
            intro tt' tid' row' hr'
            dsimp only at hr'
            split at hr'
            next hcase =>
              obtain ⟨he1, he2⟩ := hcase
              subst he1
              subst he2
              cases hr'
              have hsum := pendingSum_cancel_mem s.orders k0 o tt' o.ticket_id h2
                hmem hpend (by simp [refsTicket, hty0])
              have hb := (h1 tt' o.ticket_id row0 hrow0).2
              exact ⟨by dsimp only; omega, by dsimp only; omega⟩
            next hne =>
              obtain ⟨ha, hb⟩ := h1 tt' tid' row' hr'
              have hle := pendingSum_cancel_le s.orders k0 tt' tid' h2
              refine ⟨ha, ?_⟩
              dsimp only
              omega

/-- Helper: the accounting is preserved along any run of the backend's
operations with positive created quantities. -/
theorem run_preserves_deducted (ops : List Op) (s : DBState) (h : Deducted s)
    (hops : ∀ op ∈ ops, OpQuantityPos op) : Deducted (run s ops) := by
  induction ops generalizing s with
  | nil => exact h
  | cons op ops ih =>
    exact ih (step s op)
      (step_preserves_deducted s op h (hops op (List.mem_cons_self _ _)))
      (fun o ho => hops o (List.mem_cons_of_mem _ ho))

/-- C6 (amended): from a state where every ticket row satisfies
`0 ≤ remaining_seats ≤ total_seats` and every pending order's quantity was
previously deducted, every sequence of backend operations whose
`create_order` calls use a positive quantity preserves
`0 ≤ remaining_seats ≤ total_seats` on every ticket row. -/
theorem seat_bounds_preserved (s : DBState) (ops : List Op)
    (hsb : SeatBounds s) (hded : Deducted s)
    (hops : ∀ op ∈ ops, OpQuantityPos op) : SeatBounds (run s ops) :=
  Deducted_seatBounds _ (run_preserves_deducted ops s hded hops)

/-- C6 witness: booking then cancelling on the demonstration state keeps the
bounds. -/
theorem seat_bounds_preserved_witness :
    SeatBounds (run demoState
      [.createOp "train" 1 2 "张三" "13800138000" "" "ORDV" true,
       .cancelOp "ORDV"]) :=
  seat_bounds_preserved demoState
    [.createOp "train" 1 2 "张三" "13800138000" "" "ORDV" true, .cancelOp "ORDV"]
    demoState_deducted.1 demoState_deducted.2
    (by
      intro op hop
      simp only [List.mem_cons, List.not_mem_nil, or_false] at hop
      rcases hop with rfl | rfl
      · exact (by decide : (1 : Int) ≤ 2)
      · exact trivial)

end Travel
